import Mathlib

/-!
A shallow embedding of the prompt-record store, report generator and
delete-history operation of `src/main.py`, together with proofs of the
design-level properties stated for them.

Modelling conventions:
* The SQLite table `prompts` is modelled as a `List Row` in rowid
  (insertion) order; `CREATE TABLE IF NOT EXISTS` makes the empty list the
  initial state, and a plain `SELECT` returns the rows in that order.
* Values drawn from the environment — `uuid.uuid4()` and
  `datetime.now().strftime("%Y-%m-%d %H:%M:%S")` — are explicit parameters
  of the operations that draw them.
* The filesystem seen by `os.path.exists` / `os.remove` is a list of
  existing paths plus the set of paths on which `os.remove` would raise an
  `OSError`; fallible operations return `Except String`.
-/

/-- A row of the `prompts` table: columns `id`, `prompt`, `expected_style`,
`image_path`, `timestamp` (all `TEXT`), as created by `init_db`
(src/main.py:35-36). -/
structure Row where
  id : String
  prompt : String
  expected_style : String
  image_path : String
  timestamp : String
deriving DecidableEq

/-- One entry of the history returned by `get_prompt_history`
(src/main.py:65): `SELECT prompt, expected_style, image_path, timestamp
FROM prompts`.  The second component is bound as `style` at every use site
(src/main.py:73, 133, 142). -/
structure HRow where
  prompt : String
  style : String
  image_path : String
  timestamp : String
deriving DecidableEq

/-- The mock prompt/style pairs `init_db` seeds when the table is empty
(src/main.py:41-45). -/
def mock_data : List (String × String) :=
  [("a fantasy castle in the clouds", "realistic"),
   ("a futuristic robot chef in a kitchen", "cyberpunk"),
   ("a panda riding a bicycle in space", "cartoon")]

/-- `init_db` (src/main.py:32-50): ensure the table exists, and if
`SELECT COUNT(*)` is zero insert the three mock rows, each with a fresh
uuid, empty `image_path` and the current time.  `fresh i` is the uuid
drawn for the i-th seeded row and `now` the formatted current time. -/
def init_db (fresh : Nat → String) (now : String) (rows : List Row) : List Row :=
  if rows.length = 0 then
    rows ++ mock_data.enum.map (fun e => ⟨fresh e.1, e.2.1, e.2.2, "", now⟩)
  else rows

/-- `save_prompt` (src/main.py:53-59): insert one row with a fresh uuid
`fresh_id` and current time `now`. -/
def save_prompt (fresh_id now prompt style image_path : String)
    (rows : List Row) : List Row :=
  rows ++ [⟨fresh_id, prompt, style, image_path, now⟩]

/-- `get_prompt_history` (src/main.py:62-68): project every row onto
(prompt, expected_style, image_path, timestamp), in storage order. -/
def get_prompt_history (rows : List Row) : List HRow :=
  rows.map (fun r => ⟨r.prompt, r.expected_style, r.image_path, r.timestamp⟩)

/-- One call to `save_prompt` together with the environment values it
draws: `fresh_id` models the `uuid.uuid4()` result, `now` the formatted
`datetime.now()`. -/
structure SaveCall where
  fresh_id : String
  now : String
  prompt : String
  style : String
  image_path : String
deriving DecidableEq

/-- The row a `SaveCall` inserts. -/
def row_of_call (c : SaveCall) : Row :=
  ⟨c.fresh_id, c.prompt, c.style, c.image_path, c.now⟩

/-- The history entry `get_prompt_history` shows for a `SaveCall`'s row. -/
def hist_of_call (c : SaveCall) : HRow :=
  ⟨c.prompt, c.style, c.image_path, c.now⟩

/-- A sequence of `save_prompt` calls applied in order. -/
def save_all (rows : List Row) (calls : List SaveCall) : List Row :=
  calls.foldl
    (fun rs c => save_prompt c.fresh_id c.now c.prompt c.style c.image_path rs)
    rows

/-- Python's `s.lower()`, which lowercases each character, modelled on the
character list of the string. -/
def lower_chars (s : String) : List Char :=
  s.data.map Char.toLower

/-- Python's substring test `needle in haystack` on lowercased strings, as
written at src/main.py:76: `style.lower() in prompt.lower()`. -/

def substr_in (needle haystack : String) : Bool :=
  (lower_chars haystack).tails.any (fun t => (lower_chars needle).isPrefixOf t)

/-- The header `generate_report` starts from (src/main.py:72):
`"Evaluation Report\n" + "="*20 + "\n"`. -/
def report_header : String :=
  "Evaluation Report\n" ++ "====================" ++ "\n"

/-- The text the loop body of `generate_report` (src/main.py:73-79)
appends for one history row. -/
def report_block (r : HRow) : String :=
  if r.image_path ≠ "" then
    let alignment := if substr_in r.style r.prompt then "Aligned" else "Not fully aligned"
    "Prompt: " ++ r.prompt ++ "\nStyle: " ++ r.style ++ "\nImage: " ++ r.image_path ++
      "\nAlignment: " ++ alignment ++ "\nTimestamp: " ++ r.timestamp ++ "\n\n"
  else
    "Prompt: " ++ r.prompt ++ "\nStyle: " ++ r.style ++ "\nImage: Not generated" ++
      "\nAlignment: N/A" ++ "\nTimestamp: " ++ r.timestamp ++ "\n\n"

/-- `generate_report` (src/main.py:71-80): start from the header and
append one block per history row, in order. -/
def generate_report (history : List HRow) : String :=
  history.foldl (fun report r => report ++ report_block r) report_header

/-- The alignment label `generate_report` prints for a row: the
src/main.py:76 heuristic when an image path is present, `"N/A"` otherwise
(src/main.py:79). -/
def classify (r : HRow) : String :=
  if r.image_path ≠ "" then
    if substr_in r.style r.prompt then "Aligned" else "Not fully aligned"
  else "N/A"

/-- The filesystem visible to `delete_prompt_history`: `files` are the
paths that exist; `failing` are the paths on which `os.remove` would raise
an `OSError` (e.g. permission denied). -/
structure FS where
  files : List String
  failing : List String
deriving DecidableEq

/-- `os.path.exists(path)` (src/main.py:91). -/
def os_path_exists (fs : FS) (path : String) : Bool :=
  fs.files.contains path

/-- `os.remove(path)` (src/main.py:92): raises `OSError` on a path in
`failing`, otherwise deletes the path from the filesystem. -/
def os_remove (fs : FS) (path : String) : Except String FS :=
  if fs.failing.contains path then Except.error ("OSError: " ++ path)
  else Except.ok ⟨fs.files.filter (fun q => q != path), fs.failing⟩

/-- The loop body at src/main.py:91-92:
`if os.path.exists(path): os.remove(path)`. -/
def remove_artifact_step (fs : FS) (path : String) : Except String FS :=
  if os_path_exists fs path then os_remove fs path else Except.ok fs

/-- Modelled from the spec: the Artifact Store operation
`remove(path) -> bool` of section 4.1 — delete the file at `path` if
present and return whether a file was actually removed; never fail for a
missing file; fail only on an I/O error distinct from "not found".  The
source (src/main.py:91-92) inlines the guarded removal and discards the
boolean. -/
def artifact_remove (fs : FS) (path : String) : Except String (FS × Bool) :=
  if os_path_exists fs path then
    (os_remove fs path).map (fun fs2 => (fs2, true))
  else Except.ok (fs, false)

/-- The image paths `delete_prompt_history` collects (src/main.py:86-87):
`SELECT image_path FROM prompts WHERE image_path != ''`, one entry per
matching row, in storage order. -/
def gathered_paths (rows : List Row) : List String :=
  (rows.filter (fun r => r.image_path != "")).map Row.image_path

/-- The `for path in image_paths` loop at src/main.py:90-92, with an
unhandled `OSError` propagating out of the loop. -/
def remove_loop (fs : FS) (paths : List String) : Except String FS :=
  match paths with
  | [] => Except.ok fs
  | p :: rest =>
    match remove_artifact_step fs p with
    | Except.error e => Except.error e
    | Except.ok fs2 => remove_loop fs2 rest

/-- `delete_prompt_history` (src/main.py:83-97): collect the non-empty
image paths, remove the corresponding files, then `DELETE FROM prompts`.
An `OSError` raised inside the removal loop propagates before the DELETE
statement runs, so on error the table is unchanged; on success the result
is the new filesystem and the emptied table. -/
def delete_prompt_history (fs : FS) (rows : List Row) :
    Except String (FS × List Row) :=
  match remove_loop fs (gathered_paths rows) with
  | Except.error e => Except.error e
  | Except.ok fs2 => Except.ok (fs2, [])

/-- The front-end guard at src/main.py:117: `if generate_button and
prompt:`; a Python string is truthy iff it is non-empty.  Only inside this
branch does `main` call `save_prompt`. -/
def main_generate_guard (generate_button : Bool) (prompt : String) : Bool :=
  generate_button && !(prompt == "")

/-! ## Supporting lemmas -/

/-- The Python substring test agrees with list-infix containment of the
lowercased character sequences. -/
theorem substr_in_iff (needle haystack : String) :
    substr_in needle haystack = true ↔
      lower_chars needle <:+: lower_chars haystack := by
  unfold substr_in
  rw [List.any_eq_true]
  constructor
  · rintro ⟨t, ht, hp⟩
    rw [List.mem_tails] at ht
    rw [List.isPrefixOf_iff_prefix] at hp
    exact List.infix_iff_prefix_suffix.mpr ⟨t, hp, ht⟩
  · intro h
    obtain ⟨t, hp, hs⟩ := List.infix_iff_prefix_suffix.mp h
    exact ⟨t, (List.mem_tails _ _).mpr hs, List.isPrefixOf_iff_prefix.mpr hp⟩

/-- The block printed for a row that has an image path carries the
`classify` label. -/
theorem report_block_of_ne (r : HRow) (h : r.image_path ≠ "") :
    report_block r =
      "Prompt: " ++ r.prompt ++ "\nStyle: " ++ r.style ++ "\nImage: " ++ r.image_path ++
        "\nAlignment: " ++ classify r ++ "\nTimestamp: " ++ r.timestamp ++ "\n\n" := by
  simp [report_block, classify, h]

/-- The block printed for a row with no image path. -/
theorem report_block_of_empty (r : HRow) (h : r.image_path = "") :
    report_block r =
      "Prompt: " ++ r.prompt ++ "\nStyle: " ++ r.style ++ "\nImage: Not generated" ++
        "\nAlignment: N/A" ++ "\nTimestamp: " ++ r.timestamp ++ "\n\n" := by
  simp [report_block, h]

/-- Joining a cons of strings. -/
theorem string_join_acc (l : List String) (acc : String) :
    l.foldl (fun a b => a ++ b) acc = acc ++ String.join l := by
  induction l generalizing acc with
  | nil => rw [List.foldl_nil, show String.join [] = "" from rfl, String.append_empty]
  | cons s rest ih =>
    have hj : String.join (s :: rest) = s ++ String.join rest := by
      show List.foldl (fun a b => a ++ b) ("" ++ s) rest = _
      rw [String.empty_append]
      exact ih s
    rw [List.foldl_cons, ih, hj, String.append_assoc]

/-- The report loop accumulates exactly one block per row, in order. -/
theorem foldl_block_eq (h : List HRow) (acc : String) :
    h.foldl (fun a r => a ++ report_block r) acc
      = acc ++ String.join (h.map report_block) := by
  induction h generalizing acc with
  | nil => rw [List.foldl_nil, List.map_nil, show String.join [] = "" from rfl,
      String.append_empty]
  | cons r rest ih =>
    have hj : String.join (report_block r :: rest.map report_block)
        = report_block r ++ String.join (rest.map report_block) := by
      show List.foldl (fun a b => a ++ b) ("" ++ report_block r) _ = _
      rw [String.empty_append]
      exact string_join_acc _ _
    rw [List.foldl_cons, ih, List.map_cons, hj, String.append_assoc]

/-- A sequence of `save_prompt` calls appends the corresponding rows. -/
theorem save_all_eq (rows : List Row) (calls : List SaveCall) :
    save_all rows calls = rows ++ calls.map row_of_call := by
  induction calls generalizing rows with
  | nil => simp [save_all]
  | cons c cs ih =>
    calc save_all rows (c :: cs)
        = save_all (rows ++ [row_of_call c]) cs := rfl
      _ = (rows ++ [row_of_call c]) ++ cs.map row_of_call := ih _
      _ = rows ++ (c :: cs).map row_of_call := by simp

/-- Membership in the collected image-path list. -/
theorem gathered_paths_mem (rows : List Row) (p : String) :
    p ∈ gathered_paths rows ↔ p ≠ "" ∧ ∃ r ∈ rows, r.image_path = p := by
  unfold gathered_paths
  simp only [List.mem_map, List.mem_filter, bne_iff_ne, ne_eq]
  constructor
  · rintro ⟨r, ⟨hr, hne⟩, hp⟩
    exact ⟨by rw [← hp]; exact hne, r, hr, hp⟩
  · rintro ⟨hp, r, hr, hrp⟩
    exact ⟨r, ⟨hr, by rw [hrp]; exact hp⟩, hrp⟩

/-- Multiplicity in the collected image-path list: one occurrence per row
whose `image_path` equals the given non-empty path. -/
theorem gathered_paths_count (rows : List Row) (p : String) (hp : p ≠ "") :
    (gathered_paths rows).count p
      = (rows.filter (fun r => r.image_path == p)).length := by
  unfold gathered_paths
  rw [List.count_eq_countP, List.countP_map, List.countP_filter,
    ← List.countP_eq_length_filter]
  refine List.countP_congr ?_
  intro r _
  constructor
  · intro h
    exact ((Bool.and_eq_true _ _).mp h).1
  · intro h
    have hrp : r.image_path = p := by simpa using h
    refine (Bool.and_eq_true _ _).mpr ⟨h, ?_⟩
    rw [bne_iff_ne, hrp]
    exact hp

/-- When no path the loop visits is failing, the removal loop completes
without an exception and never touches the failing set. -/
theorem remove_loop_ok (paths : List String) (fs : FS)
    (h : ∀ p ∈ paths, fs.failing.contains p = false) :
    ∃ fs2 : FS, remove_loop fs paths = Except.ok fs2 ∧ fs2.failing = fs.failing := by
  induction paths generalizing fs with
  | nil => exact ⟨fs, rfl, rfl⟩
  | cons p rest ih =>
    have hpmem : p ∉ fs.failing := by simpa using h p (List.mem_cons_self _ _)
    by_cases he : os_path_exists fs p = true
    · have hstep : remove_artifact_step fs p
          = Except.ok ⟨fs.files.filter (fun q => q != p), fs.failing⟩ := by
        simp [remove_artifact_step, os_remove, he, hpmem]
      obtain ⟨fs2, h1, h2⟩ :=
        ih ⟨fs.files.filter (fun q => q != p), fs.failing⟩
          (fun q hq => h q (List.mem_cons_of_mem _ hq))
      refine ⟨fs2, ?_, h2⟩
      rw [remove_loop, hstep]
      exact h1
    · have hstep : remove_artifact_step fs p = Except.ok fs := by
        simp [remove_artifact_step, he]
      obtain ⟨fs2, h1, h2⟩ := ih fs (fun q hq => h q (List.mem_cons_of_mem _ hq))
      refine ⟨fs2, ?_, h2⟩
      rw [remove_loop, hstep]
      exact h1

/-! ## Claim theorems -/

/-- C1: after any sequence of `save_prompt` inserts on a store,
`get_prompt_history` returns the store's prior records followed by exactly
the inserted records, in insertion order, and — the drawn uuids being
fresh and pairwise distinct — every stored record carries a unique id. -/
theorem C1_insert_then_list_all (rows : List Row) (calls : List SaveCall)
    (h : (rows.map Row.id ++ calls.map SaveCall.fresh_id).Nodup) :
    get_prompt_history (save_all rows calls)
      = get_prompt_history rows ++ calls.map hist_of_call
    ∧ ((save_all rows calls).map Row.id).Nodup := by
  constructor
  · rw [save_all_eq]
    unfold get_prompt_history
    rw [List.map_append, List.map_map]
    rfl
  · rw [save_all_eq, List.map_append, List.map_map]
    exact h

/-- Witness for C1: a seeded store and two concrete inserts. -/
theorem C1_insert_then_list_all_witness :
    (get_prompt_history (save_all
        [⟨"u0", "a fantasy castle in the clouds", "realistic", "", "t0"⟩]
        [⟨"u1", "t1", "a dragon", "realistic", "images/a.png"⟩,
         ⟨"u2", "t2", "a city", "cyberpunk", ""⟩])
      = get_prompt_history
          [⟨"u0", "a fantasy castle in the clouds", "realistic", "", "t0"⟩]
        ++ [⟨"u1", "t1", "a dragon", "realistic", "images/a.png"⟩,
            ⟨"u2", "t2", "a city", "cyberpunk", ""⟩].map hist_of_call)
    ∧ ((save_all
        [⟨"u0", "a fantasy castle in the clouds", "realistic", "", "t0"⟩]
        [⟨"u1", "t1", "a dragon", "realistic", "images/a.png"⟩,
         ⟨"u2", "t2", "a city", "cyberpunk", ""⟩]).map Row.id).Nodup :=
  C1_insert_then_list_all _ _ (by decide)

/-- C6: `init_db` is idempotent with respect to the seed data: a second
call on a store seeded from empty adds no rows, the first call on the
empty store seeds exactly the mock records, and a call on any non-empty
store leaves it unchanged. -/
theorem C6_init_db_idempotent (f f2 : Nat → String) (now now2 : String) :
    (init_db f2 now2 (init_db f now [])).length = (init_db f now []).length
    ∧ (init_db f now []).length = mock_data.length
    ∧ (∀ rows : List Row, rows ≠ [] → init_db f2 now2 rows = rows) := by
  have h3 : (init_db f now []).length = 3 := rfl
  have hseed : ∀ (g : Nat → String) (t : String) (rows : List Row), rows ≠ [] →
      init_db g t rows = rows := by
    intro g t rows hne
    unfold init_db
    rw [if_neg]
    intro h0
    exact hne (List.length_eq_zero.mp h0)
  have hne : init_db f now [] ≠ [] := by
    intro hnil
    rw [hnil] at h3
    exact absurd h3 (by decide)
  exact ⟨by rw [hseed f2 now2 _ hne], rfl, hseed f2 now2⟩

/-- Witness for C6 at concrete environments and a concrete non-empty store. -/
theorem C6_init_db_idempotent_witness :
    (init_db (fun _ => "u2") "t2" (init_db (fun _ => "u") "t" [])).length
        = (init_db (fun _ => "u") "t" []).length
    ∧ (init_db (fun _ => "u") "t" []).length = mock_data.length
    ∧ init_db (fun _ => "u2") "t2" [⟨"a", "b", "c", "", "d"⟩]
        = [⟨"a", "b", "c", "", "d"⟩] := by
  obtain ⟨h1, h2, h3⟩ :=
    C6_init_db_idempotent (fun _ => "u") (fun _ => "u2") "t" "t2"
  exact ⟨h1, h2, h3 _ (by decide)⟩

/-- C7: the report depends on nothing but the listed history — two stores
whose `get_prompt_history` projections agree (they may differ in row ids,
or be stored under different environments) produce byte-identical report
text, `generate_report` itself being a pure function of its input. -/
theorem C7_generate_report_deterministic (rows1 rows2 : List Row)
    (h : get_prompt_history rows1 = get_prompt_history rows2) :
    generate_report (get_prompt_history rows1)
      = generate_report (get_prompt_history rows2) :=
  congrArg generate_report h

/-- Witness for C7: two stores differing only in their uuids. -/
theorem C7_generate_report_deterministic_witness :
    generate_report (get_prompt_history
        [⟨"uuid-a", "a cyberpunk city", "cyberpunk", "x.png", "t"⟩])
      = generate_report (get_prompt_history
        [⟨"uuid-b", "a cyberpunk city", "cyberpunk", "x.png", "t"⟩]) :=
  C7_generate_report_deterministic _ _ (by decide)

/-- C8: whenever the combined delete-history operation completes, a
subsequent `get_prompt_history` returns the empty sequence. -/
theorem C8_purge_then_list_all_empty (fs fs2 : FS) (rows rows2 : List Row)
    (h : delete_prompt_history fs rows = Except.ok (fs2, rows2)) :
    get_prompt_history rows2 = [] := by
  unfold delete_prompt_history at h
  cases hr : remove_loop fs (gathered_paths rows) with
  | error e =>
    rw [hr] at h
    exact absurd h (by simp)
  | ok fsx =>
    rw [hr] at h
    injection h with h2
    injection h2 with ha hb
    rw [← hb]
    rfl

/-- Witness for C8: a store with one image-backed record, all removals
succeeding. -/
theorem C8_purge_then_list_all_empty_witness :
    delete_prompt_history ⟨["x.png"], []⟩ [⟨"i", "p", "s", "x.png", "t"⟩]
        = Except.ok (⟨[], []⟩, [])
    ∧ get_prompt_history [] = [] :=
  ⟨by rfl,
   C8_purge_then_list_all_empty ⟨["x.png"], []⟩ ⟨[], []⟩
     [⟨"i", "p", "s", "x.png", "t"⟩] [] (by rfl)⟩

/-- C10: `save_prompt` imposes no precondition on the prompt text: an
insert with the empty prompt succeeds and stores a record whose prompt is
the empty string (visible in the history), while the front-end guard of
`main` is what refuses empty prompts — it generates (and hence saves)
only when the prompt is non-empty. -/
theorem C10_save_prompt_no_precondition (fresh_id now style image_path : String)
    (rows : List Row) :
    save_prompt fresh_id now "" style image_path rows
        = rows ++ [⟨fresh_id, "", style, image_path, now⟩]
    ∧ get_prompt_history (save_prompt fresh_id now "" style image_path rows)
        = get_prompt_history rows ++ [⟨"", style, image_path, now⟩]
    ∧ (∀ b : Bool, main_generate_guard b "" = false)
    ∧ (∀ (b : Bool) (p : String), main_generate_guard b p = true → p ≠ "") := by
  refine ⟨rfl, ?_, ?_, ?_⟩
  · unfold get_prompt_history save_prompt
    rw [List.map_append]
    rfl
  · intro b
    cases b <;> rfl
  · intro b p hg hp
    rw [hp] at hg
    cases b <;> simp [main_generate_guard] at hg

/-- Witness for C10: an empty-prompt insert on the empty store, and the
guard at a concrete non-empty prompt. -/
theorem C10_save_prompt_no_precondition_witness :
    save_prompt "u" "t" "" "realistic" "" [] = [⟨"u", "", "realistic", "", "t"⟩]
    ∧ get_prompt_history (save_prompt "u" "t" "" "realistic" "" [])
        = [⟨"", "realistic", "", "t"⟩]
    ∧ main_generate_guard true "" = false
    ∧ ("a dragon" : String) ≠ "" := by
  obtain ⟨h1, h2, h3, h4⟩ :=
    C10_save_prompt_no_precondition "u" "t" "realistic" "" []
  exact ⟨h1, by rw [h2]; rfl, h3 true, h4 true "a dragon" (by decide)⟩

/-- C4: `generate_report` labels a history row "Aligned" exactly when its
image path is non-empty and the style occurs case-insensitively as a
substring of the prompt, "Not fully aligned" exactly when the image path
is non-empty and the style does not so occur, and "N/A" exactly when the
image path is empty — as witnessed on the three record shapes of the
specification. -/
theorem C4_alignment_classification :
    (∀ r : HRow,
      (classify r = "Aligned" ↔
        r.image_path ≠ "" ∧ lower_chars r.style <:+: lower_chars r.prompt)
      ∧ (classify r = "Not fully aligned" ↔
        r.image_path ≠ "" ∧ ¬ lower_chars r.style <:+: lower_chars r.prompt)
      ∧ (classify r = "N/A" ↔ r.image_path = ""))
    ∧ classify ⟨"a cyberpunk city", "cyberpunk", "x.png", "t"⟩ = "Aligned"
    ∧ classify ⟨"a city", "cyberpunk", "x.png", "t"⟩ = "Not fully aligned"
    ∧ classify ⟨"a city", "cyberpunk", "", "t"⟩ = "N/A" := by
  refine ⟨fun r => ?_, by decide, by decide, by decide⟩
  have hsub := substr_in_iff r.style r.prompt
  by_cases hip : r.image_path = ""
  · have hc : classify r = "N/A" := by simp [classify, hip]
    refine ⟨?_, ?_, ?_⟩
    · rw [hc]
      constructor
      · intro h
        exact absurd h (by decide)
      · rintro ⟨h, -⟩
        exact absurd hip h
    · rw [hc]
      constructor
      · intro h
        exact absurd h (by decide)
      · rintro ⟨h, -⟩
        exact absurd hip h
    · rw [hc]
      exact ⟨fun _ => hip, fun _ => rfl⟩
  · by_cases hs : substr_in r.style r.prompt = true
    · have hc : classify r = "Aligned" := by simp [classify, hip, hs]
      refine ⟨?_, ?_, ?_⟩
      · rw [hc]
        exact ⟨fun _ => ⟨hip, hsub.mp hs⟩, fun _ => rfl⟩
      · rw [hc]
        constructor
        · intro h
          exact absurd h (by decide)
        · rintro ⟨-, hn⟩
          exact absurd (hsub.mp hs) hn
      · rw [hc]
        constructor
        · intro h
          exact absurd h (by decide)
        · intro h
          exact absurd h hip
    · have hni : ¬ lower_chars r.style <:+: lower_chars r.prompt :=
        fun hin => hs (hsub.mpr hin)
      have hc : classify r = "Not fully aligned" := by simp [classify, hip, hs]
      refine ⟨?_, ?_, ?_⟩
      · rw [hc]
        constructor
        · intro h
          exact absurd h (by decide)
        · rintro ⟨-, hin⟩
          exact absurd hin hni
      · rw [hc]
        exact ⟨fun _ => ⟨hip, hni⟩, fun _ => rfl⟩
      · rw [hc]
        constructor
        · intro h
          exact absurd h (by decide)
        · intro h
          exact absurd h hip

/-- C5: the report is the fixed header followed by exactly one block per
input row, in input order; a block carries the row's prompt, style, image
path (or the "Not generated" marker when the image path is empty), its
alignment label and its timestamp. -/
theorem C5_report_structure :
    (∀ h : List HRow,
      generate_report h = report_header ++ String.join (h.map report_block)
      ∧ (h.map report_block).length = h.length)
    ∧ (∀ r : HRow, r.image_path ≠ "" →
        report_block r =
          "Prompt: " ++ r.prompt ++ "\nStyle: " ++ r.style ++ "\nImage: " ++
            r.image_path ++ "\nAlignment: " ++ classify r ++ "\nTimestamp: " ++
            r.timestamp ++ "\n\n")
    ∧ (∀ r : HRow, r.image_path = "" →
        report_block r =
          "Prompt: " ++ r.prompt ++ "\nStyle: " ++ r.style ++
            "\nImage: Not generated" ++ "\nAlignment: N/A" ++ "\nTimestamp: " ++
            r.timestamp ++ "\n\n") :=
  ⟨fun h => ⟨foldl_block_eq h report_header, by simp⟩,
   report_block_of_ne, report_block_of_empty⟩

/-- Witness for C5 at the specification's end-to-end example shape: three
mixed records, two with an image path and one without. -/
theorem C5_report_structure_witness :
    (generate_report
        [⟨"a cyberpunk city", "cyberpunk", "x.png", "t1"⟩,
         ⟨"a city", "realistic", "y.png", "t2"⟩,
         ⟨"a panda", "cartoon", "", "t3"⟩]
      = report_header ++ String.join
          ([⟨"a cyberpunk city", "cyberpunk", "x.png", "t1"⟩,
            ⟨"a city", "realistic", "y.png", "t2"⟩,
            ⟨"a panda", "cartoon", "", "t3"⟩].map report_block))
    ∧ ([⟨"a cyberpunk city", "cyberpunk", "x.png", "t1"⟩,
        ⟨"a city", "realistic", "y.png", "t2"⟩,
        ⟨"a panda", "cartoon", "", "t3"⟩].map report_block).length = 3
    ∧ report_block ⟨"a city", "realistic", "y.png", "t2"⟩
        = "Prompt: " ++ "a city" ++ "\nStyle: " ++ "realistic" ++ "\nImage: " ++
            "y.png" ++ "\nAlignment: " ++
            classify ⟨"a city", "realistic", "y.png", "t2"⟩ ++ "\nTimestamp: " ++
            "t2" ++ "\n\n"
    ∧ report_block ⟨"a panda", "cartoon", "", "t3"⟩
        = "Prompt: " ++ "a panda" ++ "\nStyle: " ++ "cartoon" ++
            "\nImage: Not generated" ++ "\nAlignment: N/A" ++ "\nTimestamp: " ++
            "t3" ++ "\n\n" := by
  refine ⟨(C5_report_structure.1 _).1, (C5_report_structure.1 _).2,
    C5_report_structure.2.1 _ (by decide), C5_report_structure.2.2 _ (by decide)⟩

/-- C2 counterexample: on a store whose two records share the image path
"x.png", the collected list contains that path twice — it is not
duplicate-free. -/
theorem C2_purge_collects_counterexample :
    gathered_paths
        [⟨"i1", "p1", "s1", "x.png", "t1"⟩, ⟨"i2", "p2", "s2", "x.png", "t2"⟩]
      = ["x.png", "x.png"]
    ∧ ¬ (gathered_paths
        [⟨"i1", "p1", "s1", "x.png", "t1"⟩,
         ⟨"i2", "p2", "s2", "x.png", "t2"⟩]).Nodup :=
  ⟨rfl, by decide⟩

/-- C2 (amended): the collection gathered by `delete_prompt_history`
contains a path exactly when some record holds it as a non-empty
`image_path` — never the path of a record whose `image_path` is empty —
and it lists one occurrence per such record, so a path shared by several
records occurs once per record rather than once overall. -/
theorem C2_gathered_paths_exact (rows : List Row) (p : String) (hp : p ≠ "") :
    "" ∉ gathered_paths rows
    ∧ (p ∈ gathered_paths rows ↔ ∃ r ∈ rows, r.image_path = p)
    ∧ (gathered_paths rows).count p
        = (rows.filter (fun r => r.image_path == p)).length := by
  refine ⟨?_, ?_, gathered_paths_count rows p hp⟩
  · intro hmem
    exact ((gathered_paths_mem rows "").mp hmem).1 rfl
  · rw [gathered_paths_mem]
    exact ⟨fun h => h.2, fun h => ⟨hp, h⟩⟩

/-- Witness for C2 (amended) on a concrete two-record store. -/
theorem C2_gathered_paths_exact_witness :
    "" ∉ gathered_paths
        [⟨"i1", "p1", "s1", "x.png", "t1"⟩, ⟨"i2", "p2", "s2", "", "t2"⟩]
    ∧ ("x.png" ∈ gathered_paths
          [⟨"i1", "p1", "s1", "x.png", "t1"⟩, ⟨"i2", "p2", "s2", "", "t2"⟩]
        ↔ ∃ r ∈ ([⟨"i1", "p1", "s1", "x.png", "t1"⟩,
                  ⟨"i2", "p2", "s2", "", "t2"⟩] : List Row),
            r.image_path = "x.png")
    ∧ (gathered_paths
          [⟨"i1", "p1", "s1", "x.png", "t1"⟩,
           ⟨"i2", "p2", "s2", "", "t2"⟩]).count "x.png"
        = (([⟨"i1", "p1", "s1", "x.png", "t1"⟩,
             ⟨"i2", "p2", "s2", "", "t2"⟩] : List Row).filter
            (fun r => r.image_path == "x.png")).length :=
  C2_gathered_paths_exact _ "x.png" (by decide)

/-- C3 counterexample: with records referencing "a.png" and "b.png", both
files present but removal of "a.png" raising an `OSError`, the operation
propagates the error: the other artifact is not removed, the record rows
are not deleted, and no success is reported. -/
theorem C3_best_effort_counterexample :
    delete_prompt_history ⟨["a.png", "b.png"], ["a.png"]⟩
        [⟨"id1", "p1", "realistic", "a.png", "t1"⟩,
         ⟨"id2", "p2", "cartoon", "b.png", "t2"⟩]
      = Except.error "OSError: a.png" := rfl

/-- C3 (amended): as long as no collected path is one on which `os.remove`
raises an OS error, the combined delete-history operation tolerates missing
artifact files (they are skipped), removes the artifacts that exist,
commits the row deletion and reports success. -/
theorem C3_delete_best_effort (fs : FS) (rows : List Row)
    (h : ∀ p ∈ gathered_paths rows, fs.failing.contains p = false) :
    ∃ fs2 : FS, delete_prompt_history fs rows = Except.ok (fs2, [])
      ∧ fs2.failing = fs.failing := by
  obtain ⟨fs2, h1, h2⟩ := remove_loop_ok (gathered_paths rows) fs h
  refine ⟨fs2, ?_, h2⟩
  unfold delete_prompt_history
  rw [h1]

/-- Witness for C3 (amended): one referenced artifact is missing from the
filesystem, the other present; the operation still succeeds and clears
the table. -/
theorem C3_delete_best_effort_witness :
    ∃ fs2 : FS,
      delete_prompt_history ⟨["b.png"], []⟩
          [⟨"id1", "p1", "realistic", "a.png", "t1"⟩,
           ⟨"id2", "p2", "cartoon", "b.png", "t2"⟩]
        = Except.ok (fs2, [])
      ∧ fs2.failing = [] :=
  C3_delete_best_effort ⟨["b.png"], []⟩ _ (by decide)

/-- C9: the guarded artifact removal on a missing path removes nothing
and raises no error — and, per the spec's `remove` contract, reports that
no file was removed — while on a present path (absent an OS error) the
file is deleted and the removal is reported; the source's inline guard
and the spec-modelled `artifact_remove` agree on the filesystem effect. -/
theorem C9_remove_missing_tolerated (fs : FS) (path : String) :
    (os_path_exists fs path = false →
      remove_artifact_step fs path = Except.ok fs
      ∧ artifact_remove fs path = Except.ok (fs, false))
    ∧ (os_path_exists fs path = true → path ∉ fs.failing →
      remove_artifact_step fs path
          = Except.ok ⟨fs.files.filter (fun q => q != path), fs.failing⟩
      ∧ artifact_remove fs path
          = Except.ok (⟨fs.files.filter (fun q => q != path), fs.failing⟩, true)
      ∧ path ∉ fs.files.filter (fun q => q != path)) := by
  constructor
  · intro he
    constructor
    · simp [remove_artifact_step, he]
    · simp [artifact_remove, he]
  · intro he hnf
    refine ⟨?_, ?_, ?_⟩
    · simp [remove_artifact_step, os_remove, he, hnf]
    · simp [artifact_remove, os_remove, he, hnf, Except.map]
    · simp [List.mem_filter]

/-- Witness for C9: a missing path and a present path on a concrete
filesystem. -/
theorem C9_remove_missing_tolerated_witness :
    (remove_artifact_step ⟨["b.png"], []⟩ "a.png" = Except.ok ⟨["b.png"], []⟩
      ∧ artifact_remove ⟨["b.png"], []⟩ "a.png" = Except.ok (⟨["b.png"], []⟩, false))
    ∧ (remove_artifact_step ⟨["b.png"], []⟩ "b.png"
          = Except.ok ⟨List.filter (fun q => q != "b.png") ["b.png"], []⟩
      ∧ artifact_remove ⟨["b.png"], []⟩ "b.png"
          = Except.ok (⟨List.filter (fun q => q != "b.png") ["b.png"], []⟩, true)
      ∧ "b.png" ∉ List.filter (fun q => q != "b.png") ["b.png"]) :=
  ⟨(C9_remove_missing_tolerated ⟨["b.png"], []⟩ "a.png").1 (by decide),
   (C9_remove_missing_tolerated ⟨["b.png"], []⟩ "b.png").2 (by decide) (by decide)⟩
